import Mathlib

/-!
Shallow embedding of the row-level-secured CRUD layer of `src/app.py`
(`DatabaseManager` and the surrounding Streamlit session-state logic).

SQL parameter values are modelled by `Value`; Python dicts by association
lists with Python's assignment semantics (`dictSet`); `datetime.now()` by
explicit time arguments, one per call site; the warehouse table by a list
of rows, with the relational meaning of each generated statement given by
`matchingRows` / `update_store` / `delete_store`; backend failures by
explicit behaviour flags; an exception escaping a Python function by the
`PyExec.raised` constructor.
-/

namespace DBApp

/-- A SQL parameter value: a string, a `datetime.now()` timestamp, or an
integer id, mirroring the Python values passed in parameter lists. -/
inductive Value where
  | str : String → Value
  | time : Nat → Value
  | nat : Nat → Value
deriving DecidableEq, Repr

/-- A Python dict of column name to value, in insertion order. -/
abbrev Dict := List (String × Value)

/-- Python `d[k] = v`: replace the value if the key is present (keeping its
position), otherwise append the new key at the end. -/
def dictSet : Dict → String → Value → Dict
  | [], k, v => [(k, v)]
  | p :: ps, k, v => if p.1 = k then (k, v) :: ps else p :: dictSet ps k v

/-- Python `d.get(k)`: first value stored under key `k`, if any. -/
def dictGet : Dict → String → Option Value
  | [], _ => none
  | p :: ps, k => if p.1 = k then some p.2 else dictGet ps k

/-- Python `list(d.keys())`. -/
def dictKeys (d : Dict) : List String := d.map Prod.fst

/-- The three configured name components of `get_config` that address the
managed table (`catalog`, `schema`, `table`). -/
structure Config where
  catalog : String
  schem : String
  table : String
deriving DecidableEq, Repr

/-- `f"{self.config['catalog']}.{self.config['schema']}.{self.config['table']}"`. -/
def tableName (c : Config) : String :=
  c.catalog ++ "." ++ c.schem ++ "." ++ c.table

/-- The dict mutations performed by `create_record` before building the
insert statement: `data['owner_user'] = user_id`,
`data['created_at'] = datetime.now()`, `data['updated_at'] = datetime.now()`.
The two `datetime.now()` calls are distinct call sites and are modelled by
the two time arguments `t₁` and `t₂`. The result is the state of the
caller-supplied dict after `create_record` returns (the Python code mutates
the caller's dict in place). -/
def create_record_mutated (data : Dict) (user_id : String) (t₁ t₂ : Nat) : Dict :=
  dictSet (dictSet (dictSet data "owner_user" (Value.str user_id))
    "created_at" (Value.time t₁)) "updated_at" (Value.time t₂)

/-- The statement text and positional parameter list built by
`create_record` (lines 93-101 of `src/app.py`). -/
def create_record_query (cfg : Config) (data : Dict) (user_id : String)
    (t₁ t₂ : Nat) : String × List Value :=
  let d := create_record_mutated data user_id t₁ t₂
  let columns := String.intercalate ", " (dictKeys d)
  let placeholders := String.intercalate ", " (d.map (fun _ => "?"))
  ("\n        INSERT INTO " ++ tableName cfg ++ " (" ++ columns ++
      ")\n        VALUES (" ++ placeholders ++ ")\n        ",
   d.map Prod.snd)

/-- The truthy filters kept by `read_records`: Python `if value:` skips
`None` and the empty string. -/
def activeFilters (filters : List (String × Option String)) :
    List (String × String) :=
  filters.filterMap fun p =>
    match p.2 with
    | some v => if v = "" then none else some (p.1, v)
    | none => none

/-- The statement text and positional parameter list built by
`read_records` (lines 107-120 of `src/app.py`): a mandatory
`WHERE owner_user = ?`, one ` AND {column} LIKE ?` per truthy filter with a
`%value%` parameter, then ` ORDER BY updated_at DESC`. -/
def read_records_query (cfg : Config) (user_id : String)
    (filters : List (String × Option String)) : String × List Value :=
  let base := "\n        SELECT * FROM " ++ tableName cfg ++
      "\n        WHERE owner_user = ?\n        "
  let act := activeFilters filters
  let q := act.foldl (fun acc p => acc ++ " AND " ++ p.1 ++ " LIKE ?") base ++
      " ORDER BY updated_at DESC"
  (q, Value.str user_id :: act.map (fun p => Value.str ("%" ++ p.2 ++ "%")))

/-- The dict mutation performed by `update_record` before building the
statement: `data['updated_at'] = datetime.now()`. -/
def update_record_mutated (data : Dict) (t : Nat) : Dict :=
  dictSet data "updated_at" (Value.time t)

/-- The statement text and positional parameter list built by
`update_record` (lines 140-148 of `src/app.py`). -/
def update_record_query (cfg : Config) (record_id : Nat) (data : Dict)
    (user_id : String) (t : Nat) : String × List Value :=
  let d := update_record_mutated data t
  let set_clause := String.intercalate ", " (d.map (fun p => p.1 ++ " = ?"))
  ("\n        UPDATE " ++ tableName cfg ++ "\n        SET " ++ set_clause ++
      "\n        WHERE id = ? AND owner_user = ?\n        ",
   d.map Prod.snd ++ [Value.nat record_id, Value.str user_id])

/-- The statement text and positional parameter list built by
`delete_record` (lines 155-160 of `src/app.py`). -/
def delete_record_query (cfg : Config) (record_id : Nat) (user_id : String) :
    String × List Value :=
  ("\n        DELETE FROM " ++ tableName cfg ++
      "\n        WHERE id = ? AND owner_user = ?\n        ",
   [Value.nat record_id, Value.str user_id])

/-! ### Relational model of the managed table -/

/-- One row of the managed table: the warehouse-assigned `id`, the three
layer-managed columns, and the domain columns in `fields`. -/
structure Row where
  id : Nat
  owner_user : String
  created_at : Nat
  updated_at : Nat
  fields : Dict
deriving DecidableEq, Repr

/-- The managed table. -/
abbrev Store := List Row

/-- SQL `s LIKE '%pat%'`: `pat` occurs as a contiguous substring of `s`. -/
def likeContains (s pat : String) : Bool := decide (pat.data <:+: s.data)

/-- The text a `LIKE` pattern is matched against for a given value. -/
def valueText : Value → String
  | .str s => s
  | .time t => toString t
  | .nat n => toString n

/-- Whether row `r` satisfies one generated `column LIKE '%pat%'` clause. -/
def likeMatch (r : Row) (column pat : String) : Bool :=
  match dictGet r.fields column with
  | some v => likeContains (valueText v) pat
  | none => false

/-- Insert a row into a list kept in `updated_at`-descending order. -/
def insertDesc (r : Row) : List Row → List Row
  | [] => [r]
  | x :: xs => if x.updated_at ≤ r.updated_at then r :: x :: xs else x :: insertDesc r xs

/-- `ORDER BY updated_at DESC`. -/
def sortByUpdatedDesc (l : List Row) : List Row := l.foldr insertDesc []

/-- The relational meaning of the SELECT generated by `read_records`: the
rows owned by `user_id` that satisfy every truthy filter, ordered by
`updated_at` descending. -/
def matchingRows (user_id : String)
    (filters : List (String × Option String)) (store : Store) : List Row :=
  sortByUpdatedDesc (store.filter fun r =>
    r.owner_user == user_id &&
      (activeFilters filters).all fun p => likeMatch r p.1 p.2)

/-- Apply one `column = value` assignment of a SET clause to a row. -/
def setColumn (r : Row) (k : String) (v : Value) : Row :=
  if k = "updated_at" then
    match v with
    | .time t => { r with updated_at := t }
    | _ => r
  else if k = "created_at" then
    match v with
    | .time t => { r with created_at := t }
    | _ => r
  else if k = "owner_user" then
    match v with
    | .str s => { r with owner_user := s }
    | _ => r
  else { r with fields := dictSet r.fields k v }

/-- Apply a whole SET clause to a row. -/
def applyUpdates (r : Row) (d : Dict) : Row :=
  d.foldl (fun r p => setColumn r p.1 p.2) r

/-- The relational meaning of the UPDATE generated by `update_record`:
apply the SET clause exactly to the rows satisfying
`id = record_id AND owner_user = user_id`. -/
def update_store (store : Store) (record_id : Nat) (d : Dict)
    (user_id : String) : Store :=
  store.map fun r =>
    if r.id == record_id && r.owner_user == user_id then applyUpdates r d else r

/-- The relational meaning of the DELETE generated by `delete_record`:
remove exactly the rows satisfying `id = record_id AND owner_user = user_id`. -/
def delete_store (store : Store) (record_id : Nat) (user_id : String) : Store :=
  store.filter fun r => !(r.id == record_id && r.owner_user == user_id)

/-- The row persisted by the INSERT generated by `create_record`, built from
the mutated dict (`id` is warehouse-assigned). -/
def rowOfDict (newId : Nat) (d : Dict) : Row :=
  { id := newId
    owner_user := match dictGet d "owner_user" with | some (.str s) => s | _ => ""
    created_at := match dictGet d "created_at" with | some (.time t) => t | _ => 0
    updated_at := match dictGet d "updated_at" with | some (.time t) => t | _ => 0
    fields := d.filter fun p =>
      !(p.1 == "owner_user" || p.1 == "created_at" || p.1 == "updated_at") }

/-! ### Backend behaviour and the full operations -/

/-- Failure behaviour of the backend for one non-SELECT statement:
`connFails` models `get_connection` returning `None`; `raises` models
`cursor.execute` raising inside `execute_query`'s `try`. -/
structure ExecBehavior where
  connFails : Bool
  raises : Bool
deriving DecidableEq, Repr

/-- `execute_query` on a non-SELECT statement (lines 51-71 of `src/app.py`):
`None` when the connection is unavailable, `None` when the statement raises
(the exception is caught), `True` on success — regardless of how many rows
the statement affected. -/
def execute_query_nonselect (b : ExecBehavior) : Option Bool :=
  if b.connFails then none else if b.raises then none else some true

/-- Result of running a Python function that may let an exception escape. -/
inductive PyExec (α : Type) where
  | ok : α → PyExec α
  | raised : PyExec α
deriving DecidableEq, Repr

/-- `create_record` (lines 84-101): stamp the dict, issue the single
insert through `execute_query`, return its result. The new table state is
paired with the returned value. -/
def create_record (b : ExecBehavior) (store : Store) (newId : Nat)
    (data : Dict) (user_id : String) (t₁ t₂ : Nat) : Store × Option Bool :=
  match execute_query_nonselect b with
  | some true => (store ++ [rowOfDict newId (create_record_mutated data user_id t₁ t₂)], some true)
  | _ => (store, none)

/-- `update_record` (lines 133-149): stamp `updated_at`, issue the single
update through `execute_query`, return its result. -/
def update_record (b : ExecBehavior) (store : Store) (record_id : Nat)
    (data : Dict) (user_id : String) (t : Nat) : Store × Option Bool :=
  match execute_query_nonselect b with
  | some true => (update_store store record_id (update_record_mutated data t) user_id, some true)
  | _ => (store, none)

/-- `delete_record` (lines 151-160): issue the single delete through
`execute_query`, return its result. -/
def delete_record (b : ExecBehavior) (store : Store) (record_id : Nat)
    (user_id : String) : Store × Option Bool :=
  match execute_query_nonselect b with
  | some true => (delete_store store record_id user_id, some true)
  | _ => (store, none)

/-- Failure behaviour of the backend during one `read_records` call:
`connFails` and `queryRaises` concern the SELECT run through
`execute_query`; `describeRaises` concerns the `DESCRIBE` statement that
`read_records` runs directly, outside `execute_query`'s `try`. -/
structure ReadBehavior where
  connFails : Bool
  queryRaises : Bool
  describeRaises : Bool
deriving DecidableEq, Repr

/-- `execute_query` on the SELECT of `read_records`: `None` on connection
failure or a caught exception, otherwise the fetched rows. -/
def execute_query_select (b : ReadBehavior) (rows : List Row) : Option (List Row) :=
  if b.connFails then none else if b.queryRaises then none else some rows

/-- `read_records` (lines 103-131): run the generated SELECT through
`execute_query`; Python's `if result:` treats both `None` (failure) and
`[]` (no rows) as falsy and returns an empty DataFrame for both; on a
non-empty result, run `DESCRIBE` directly on the connection — outside any
`try` — to label the columns, so an exception there escapes the function. -/
def read_records (b : ReadBehavior) (user_id : String)
    (filters : List (String × Option String)) (store : Store) :
    PyExec (List Row) :=
  match execute_query_select b (matchingRows user_id filters store) with
  | some (r :: rs) => if b.describeRaises then .raised else .ok (r :: rs)
  | _ => .ok []

/-- The UI branch taken on a mutation's result (`if success:` in `main`):
`execute_query`'s `True` selects the success message, `None` the error
message. -/
def reported_success (res : Option Bool) : Bool :=
  match res with
  | some true => true
  | _ => false

/-- `get_current_user` (lines 73-82): `execute_query` result `None`
(connection failure or caught exception), an empty row list, or an empty
first row (whose indexing raises, caught by the bare `except`) all yield
the sentinel `"unknown_user"`; otherwise the first cell of the first row. -/
def get_current_user (result : Option (List (List String))) : String :=
  match result with
  | some ((v :: _) :: _) => v
  | _ => "unknown_user"

/-! ### Session cache (`st.session_state.data_cache`) -/

/-- The `data_cache` slot of `st.session_state`: `none` when the key is
absent, `some none` when the key holds Python `None`, `some (some rows)`
when it holds a fetched record set. -/
abbrev CacheSlot := Option (Option (List Row))

/-- The cache invalidation performed after every successful mutation
(lines 276, 334, 380): `st.session_state.data_cache = None`. The key stays
present, holding `None`. -/
def clear_cache (_c : CacheSlot) : CacheSlot := some none

/-- The fetch guard of the View Data tab (line 231):
`if 'data_cache' not in st.session_state:` — true only when the key is
absent. -/
def cache_key_absent (c : CacheSlot) : Bool := c.isNone

/-- The View Data tab's cache fill (lines 231-233): fetch fresh records
only when the guard fires. -/
def view_tab_cache (c : CacheSlot) (fetched : List Row) : CacheSlot :=
  if cache_key_absent c then some (some fetched) else c

/-- The View Data tab's display step (lines 235-241): `data = st.session_state.data_cache`
followed by `data.empty` — an `AttributeError` escapes when the slot holds
`None`, and also when the key is absent (`st.session_state` raises on a
missing attribute). -/
def display_data (c : CacheSlot) : PyExec (List Row) :=
  match c with
  | some (some rows) => .ok rows
  | _ => .raised

/-! ### Helper lemmas -/

theorem dictGet_dictSet_self (d : Dict) (k : String) (v : Value) :
    dictGet (dictSet d k v) k = some v := by
  induction d with
  | nil => simp [dictSet, dictGet]
  | cons p ps ih =>
    by_cases h : p.1 = k
    · simp [dictSet, dictGet, h]
    · simp [dictSet, dictGet, h, ih]

theorem dictGet_dictSet_ne (d : Dict) {k k' : String} (v : Value)
    (h : k' ≠ k) : dictGet (dictSet d k v) k' = dictGet d k' := by
  have hne : k ≠ k' := fun hh => h hh.symm
  induction d with
  | nil => simp [dictSet, dictGet, hne]
  | cons p ps ih =>
    by_cases hp : p.1 = k
    · have hpk : p.1 ≠ k' := by rw [hp]; exact hne
      simp [dictSet, dictGet, hp, hne, hpk]
    · by_cases hp' : p.1 = k'
      · simp [dictSet, dictGet, hp, hp', h]
      · simp [dictSet, dictGet, hp, hp', ih]

theorem dictKeys_dictSet_congr {d₁ d₂ : Dict} (k : String) (v₁ v₂ : Value)
    (h : dictKeys d₁ = dictKeys d₂) :
    dictKeys (dictSet d₁ k v₁) = dictKeys (dictSet d₂ k v₂) := by
  induction d₁ generalizing d₂ with
  | nil =>
    cases d₂ with
    | nil => simp [dictSet, dictKeys]
    | cons q qs => simp [dictKeys] at h
  | cons p ps ih =>
    cases d₂ with
    | nil => simp [dictKeys] at h
    | cons q qs =>
      simp only [dictKeys, List.map_cons, List.cons.injEq] at h
      obtain ⟨h1, h2⟩ := h
      by_cases hp : p.1 = k
      · have hq : q.1 = k := by rw [← h1]; exact hp
        simp only [dictSet, if_pos hp, if_pos hq, dictKeys, List.map_cons]
        rw [h2]
      · have hq : ¬q.1 = k := by rw [← h1]; exact hp
        simp only [dictSet, if_neg hp, if_neg hq, dictKeys, List.map_cons]
        rw [h1]
        exact congrArg (q.1 :: ·) (ih h2)

theorem map_const_congr {α β γ : Type} {l₁ : List α} {l₂ : List β}
    (c : γ) (h : l₁.length = l₂.length) :
    l₁.map (fun _ => c) = l₂.map (fun _ => c) := by
  induction l₁ generalizing l₂ with
  | nil => cases l₂ with
    | nil => rfl
    | cons => simp at h
  | cons a as ih =>
    cases l₂ with
    | nil => simp at h
    | cons b bs =>
      simp only [List.length_cons, Nat.add_right_cancel_iff] at h
      simp [ih h]

theorem length_eq_of_keys_eq {d₁ d₂ : Dict} (h : dictKeys d₁ = dictKeys d₂) :
    d₁.length = d₂.length := by
  have := congrArg List.length h
  simpa [dictKeys] using this

theorem foldl_like_clauses_congr :
    ∀ (l₁ l₂ : List (String × String)) (s : String),
      l₁.map Prod.fst = l₂.map Prod.fst →
      l₁.foldl (fun acc p => acc ++ " AND " ++ p.1 ++ " LIKE ?") s =
        l₂.foldl (fun acc p => acc ++ " AND " ++ p.1 ++ " LIKE ?") s := by
  intro l₁
  induction l₁ with
  | nil =>
    intro l₂ s h
    cases l₂ with
    | nil => rfl
    | cons => simp at h
  | cons p ps ih =>
    intro l₂ s h
    cases l₂ with
    | nil => simp at h
    | cons q qs =>
      simp only [List.map_cons, List.cons.injEq] at h
      obtain ⟨h1, h2⟩ := h
      simp only [List.foldl_cons, h1]
      exact ih qs _ h2

theorem infix_data_append_right {t : List Char} {s : String}
    (h : t <:+: s.data) (u : String) : t <:+: (s ++ u).data := by
  obtain ⟨a, b, hab⟩ := h
  exact ⟨a, b ++ u.data, by rw [String.data_append, ← hab]; simp⟩

theorem infix_data_append_left {t : List Char} (u : String) {s : String}
    (h : t <:+: s.data) : t <:+: (u ++ s).data := by
  obtain ⟨a, b, hab⟩ := h
  exact ⟨u.data ++ a, b, by rw [String.data_append, ← hab]; simp⟩

theorem infix_data_foldl_like {t : List Char} :
    ∀ (l : List (String × String)) (s : String), t <:+: s.data →
      t <:+: (l.foldl (fun acc p => acc ++ " AND " ++ p.1 ++ " LIKE ?") s).data := by
  intro l
  induction l with
  | nil => intro s h; simpa using h
  | cons p ps ih =>
    intro s h
    simp only [List.foldl_cons]
    exact ih _ (infix_data_append_right (infix_data_append_right (infix_data_append_right h _) _) _)

theorem mem_insertDesc {x r : Row} : ∀ {l : List Row},
    x ∈ insertDesc r l ↔ x = r ∨ x ∈ l := by
  intro l
  induction l with
  | nil => simp [insertDesc]
  | cons y ys ih =>
    simp only [insertDesc]
    split
    · simp [or_comm, or_assoc, or_left_comm]
    · simp only [List.mem_cons, ih]
      tauto

theorem mem_sortByUpdatedDesc {x : Row} {l : List Row} :
    x ∈ sortByUpdatedDesc l ↔ x ∈ l := by
  induction l with
  | nil => simp [sortByUpdatedDesc]
  | cons y ys ih =>
    simp only [sortByUpdatedDesc, List.foldr_cons] at *
    rw [mem_insertDesc, ih]
    simp

/-- With a healthy backend, `read_records` returns exactly the matching
rows: the empty-result branch returns `[]`, which is the matching set. -/
theorem read_records_ok (u : String) (filters : List (String × Option String))
    (store : Store) :
    read_records ⟨false, false, false⟩ u filters store =
      .ok (matchingRows u filters store) := by
  unfold read_records execute_query_select
  cases h : matchingRows u filters store with
  | nil => simp [h]
  | cons r rs => simp [h]

/-! ### Concrete fixtures -/

/-- The default table addressing of `get_config`. -/
def cfgC : Config := ⟨"main", "default", "user_data"⟩

/-- A record created under identity `"ann@co"`. -/
def rowAnn : Row :=
  { id := 42, owner_user := "ann@co", created_at := 1, updated_at := 1
    fields := [("name", Value.str "Ann"), ("email", Value.str "ann@x.com"),
               ("status", Value.str "Active")] }

/-- A one-row table holding only `rowAnn`. -/
def store42 : Store := [rowAnn]

/-- The field update of spec Scenario C. -/
def updC : Dict := [("status", Value.str "Inactive")]

/-! ### Claims -/

/-- **C1** (ownership isolation): a record `r` created under `u₁ ≠ u₂` is
never returned by `read_records` for `u₂`, and `update_record`/`delete_record`
called by `u₂` on `r.id` affect zero rows (the table is unchanged); moreover
every generated SELECT carries the mandatory `WHERE owner_user = ?` predicate
with the identity as first parameter, and every generated UPDATE and DELETE
carries `WHERE id = ? AND owner_user = ?`, both predicates joined by AND,
with the record id and identity as the trailing parameters. -/
theorem C1_ownership_isolation (cfg : Config) (store : Store) (r : Row)
    (u₁ u₂ : String) (filters : List (String × Option String)) (d : Dict)
    (t : Nat) (_hmem : r ∈ store) (hown : r.owner_user = u₁) (hne : u₁ ≠ u₂)
    (huniq : ∀ r' ∈ store, r'.id = r.id → r' = r) :
    (read_records ⟨false, false, false⟩ u₂ filters store =
        .ok (matchingRows u₂ filters store)
      ∧ r ∉ matchingRows u₂ filters store)
    ∧ (update_record ⟨false, false⟩ store r.id d u₂ t).1 = store
    ∧ (delete_record ⟨false, false⟩ store r.id u₂).1 = store
    ∧ ("WHERE owner_user = ?".data <:+: ((read_records_query cfg u₂ filters).1).data
      ∧ (read_records_query cfg u₂ filters).2.head? = some (Value.str u₂))
    ∧ ("WHERE id = ? AND owner_user = ?".data <:+:
          ((update_record_query cfg r.id d u₂ t).1).data
      ∧ (update_record_query cfg r.id d u₂ t).2
          = (update_record_mutated d t).map Prod.snd ++ [Value.nat r.id, Value.str u₂])
    ∧ ("WHERE id = ? AND owner_user = ?".data <:+:
          ((delete_record_query cfg r.id u₂).1).data
      ∧ (delete_record_query cfg r.id u₂).2 = [Value.nat r.id, Value.str u₂]) := by
  refine ⟨⟨read_records_ok u₂ filters store, ?_⟩, ?_, ?_, ⟨?_, rfl⟩, ⟨?_, rfl⟩, ⟨?_, rfl⟩⟩
  · intro hm
    rw [matchingRows, mem_sortByUpdatedDesc, List.mem_filter] at hm
    obtain ⟨-, hcond⟩ := hm
    simp only [Bool.and_eq_true, beq_iff_eq] at hcond
    have : u₁ = u₂ := by rw [← hown]; exact hcond.1
    exact hne this
  · show update_store store r.id (update_record_mutated d t) u₂ = store
    unfold update_store
    have hrow : ∀ row ∈ store,
        (if row.id == r.id && row.owner_user == u₂ then
          applyUpdates row (update_record_mutated d t) else row) = row := by
      intro row hrowm
      by_cases hid : row.id = r.id
      · have hr : row = r := huniq row hrowm hid
        have hb : (row.owner_user == u₂) = false := by
          rw [hr, hown]
          exact beq_false_of_ne hne
        simp [hb]
      · have hb : (row.id == r.id) = false := beq_false_of_ne hid
        simp [hb]
    rw [List.map_congr_left hrow, List.map_id']
  · show delete_store store r.id u₂ = store
    unfold delete_store
    rw [List.filter_eq_self]
    intro a ha
    by_cases hid : a.id = r.id
    · have hr : a = r := huniq a ha hid
      have hb : (a.owner_user == u₂) = false := by
        rw [hr, hown]
        exact beq_false_of_ne hne
      simp [hb]
    · simp [beq_false_of_ne hid]
  · have hbase : "WHERE owner_user = ?".data <:+:
        ("\n        WHERE owner_user = ?\n        " : String).data := by decide
    exact infix_data_append_right
      (infix_data_foldl_like (activeFilters filters) _
        (infix_data_append_left ("\n        SELECT * FROM " ++ tableName cfg) hbase))
      " ORDER BY updated_at DESC"
  · have hwh : "WHERE id = ? AND owner_user = ?".data <:+:
        ("\n        WHERE id = ? AND owner_user = ?\n        " : String).data := by decide
    exact infix_data_append_left _ hwh
  · have hwh : "WHERE id = ? AND owner_user = ?".data <:+:
        ("\n        WHERE id = ? AND owner_user = ?\n        " : String).data := by decide
    exact infix_data_append_left _ hwh

/-- Witness for C1 at a concrete instance: Ann's record, read/updated/deleted
by `"bob@co"`. -/
theorem C1_ownership_isolation_witness :
    (rowAnn ∈ store42 ∧ rowAnn.owner_user = "ann@co" ∧ "ann@co" ≠ "bob@co"
      ∧ ∀ r' ∈ store42, r'.id = rowAnn.id → r' = rowAnn)
    ∧ ((read_records ⟨false, false, false⟩ "bob@co" [] store42 =
          .ok (matchingRows "bob@co" [] store42)
        ∧ rowAnn ∉ matchingRows "bob@co" [] store42)
      ∧ (update_record ⟨false, false⟩ store42 rowAnn.id updC "bob@co" 5).1 = store42
      ∧ (delete_record ⟨false, false⟩ store42 rowAnn.id "bob@co").1 = store42
      ∧ ("WHERE owner_user = ?".data <:+: ((read_records_query cfgC "bob@co" []).1).data
        ∧ (read_records_query cfgC "bob@co" []).2.head? = some (Value.str "bob@co"))
      ∧ ("WHERE id = ? AND owner_user = ?".data <:+:
            ((update_record_query cfgC rowAnn.id updC "bob@co" 5).1).data
        ∧ (update_record_query cfgC rowAnn.id updC "bob@co" 5).2
            = (update_record_mutated updC 5).map Prod.snd ++ [Value.nat rowAnn.id, Value.str "bob@co"])
      ∧ ("WHERE id = ? AND owner_user = ?".data <:+:
            ((delete_record_query cfgC rowAnn.id "bob@co").1).data
        ∧ (delete_record_query cfgC rowAnn.id "bob@co").2
            = [Value.nat rowAnn.id, Value.str "bob@co"])) :=
  ⟨⟨by decide, by decide, by decide, by decide⟩,
   C1_ownership_isolation cfgC store42 rowAnn "ann@co" "bob@co" [] updC 5
     (by decide) (by decide) (by decide) (by decide)⟩

theorem map_fst_congr {γ : Type} {a b : Dict} (f : String → γ)
    (h : dictKeys a = dictKeys b) :
    a.map (fun p => f p.1) = b.map (fun p => f p.1) := by
  have ha : a.map (fun p => f p.1) = (dictKeys a).map f := by
    simp [dictKeys, List.map_map, Function.comp]
  have hb : b.map (fun p => f p.1) = (dictKeys b).map f := by
    simp [dictKeys, List.map_map, Function.comp]
  rw [ha, hb, h]

theorem create_mutated_keys_congr {d₁ d₂ : Dict} (u₁ u₂ : String)
    (t₁ t₂ s₁ s₂ : Nat) (hk : dictKeys d₁ = dictKeys d₂) :
    dictKeys (create_record_mutated d₁ u₁ t₁ t₂) =
      dictKeys (create_record_mutated d₂ u₂ s₁ s₂) := by
  unfold create_record_mutated
  exact dictKeys_dictSet_congr _ _ _
    (dictKeys_dictSet_congr _ _ _ (dictKeys_dictSet_congr _ _ _ hk))

/-- **C2**: the SQL text generated by each of the four operations is a
function of the column-name structure alone — two calls that differ only in
the user-supplied values, the identity, the timestamps, or the record id
produce the identical statement text — and every user-supplied value,
timestamp, record id, and the identity are passed exclusively through the
positional parameter list, one `?` per value. -/
theorem C2_positional_parameters_only (cfg : Config) (d₁ d₂ : Dict)
    (u₁ u₂ : String) (t₁ t₂ s₁ s₂ rid₁ rid₂ : Nat)
    (f₁ f₂ : List (String × Option String))
    (hk : dictKeys d₁ = dictKeys d₂)
    (ha : (activeFilters f₁).map Prod.fst = (activeFilters f₂).map Prod.fst) :
    ((create_record_query cfg d₁ u₁ t₁ t₂).1 = (create_record_query cfg d₂ u₂ s₁ s₂).1
      ∧ (create_record_query cfg d₁ u₁ t₁ t₂).2
          = (create_record_mutated d₁ u₁ t₁ t₂).map Prod.snd)
    ∧ ((read_records_query cfg u₁ f₁).1 = (read_records_query cfg u₂ f₂).1
      ∧ (read_records_query cfg u₁ f₁).2
          = Value.str u₁ :: (activeFilters f₁).map (fun p => Value.str ("%" ++ p.2 ++ "%")))
    ∧ ((update_record_query cfg rid₁ d₁ u₁ t₁).1 = (update_record_query cfg rid₂ d₂ u₂ s₁).1
      ∧ (update_record_query cfg rid₁ d₁ u₁ t₁).2
          = (update_record_mutated d₁ t₁).map Prod.snd ++ [Value.nat rid₁, Value.str u₁])
    ∧ ((delete_record_query cfg rid₁ u₁).1 = (delete_record_query cfg rid₂ u₂).1
      ∧ (delete_record_query cfg rid₁ u₁).2 = [Value.nat rid₁, Value.str u₁]) := by
  have hkm := create_mutated_keys_congr u₁ u₂ t₁ t₂ s₁ s₂ hk
  have hkm2 : dictKeys (update_record_mutated d₁ t₁) =
      dictKeys (update_record_mutated d₂ s₁) :=
    dictKeys_dictSet_congr _ _ _ hk
  refine ⟨⟨?_, rfl⟩, ⟨?_, rfl⟩, ⟨?_, rfl⟩, ⟨rfl, rfl⟩⟩
  · unfold create_record_query
    dsimp only
    rw [hkm, map_const_congr "?" (length_eq_of_keys_eq hkm)]
  · unfold read_records_query
    dsimp only
    rw [foldl_like_clauses_congr (activeFilters f₁) (activeFilters f₂) _ ha]
  · unfold update_record_query
    dsimp only
    rw [map_fst_congr (fun k => k ++ " = ?") hkm2]

/-- Witness for C2 at concrete inputs: two creates, reads, updates and
deletes with the same column structure but different values, identities,
timestamps and ids. -/
theorem C2_positional_parameters_only_witness :
    (dictKeys [("name", Value.str "Ann")] = dictKeys [("name", Value.str "Bob")]
      ∧ (activeFilters [("name", some "Jo")]).map Prod.fst
          = (activeFilters [("name", some "Ma")]).map Prod.fst)
    ∧ (((create_record_query cfgC [("name", Value.str "Ann")] "ann@co" 0 1).1
          = (create_record_query cfgC [("name", Value.str "Bob")] "bob@co" 2 3).1
        ∧ (create_record_query cfgC [("name", Value.str "Ann")] "ann@co" 0 1).2
            = (create_record_mutated [("name", Value.str "Ann")] "ann@co" 0 1).map Prod.snd)
      ∧ ((read_records_query cfgC "ann@co" [("name", some "Jo")]).1
            = (read_records_query cfgC "bob@co" [("name", some "Ma")]).1
        ∧ (read_records_query cfgC "ann@co" [("name", some "Jo")]).2
            = Value.str "ann@co" :: (activeFilters [("name", some "Jo")]).map
                (fun p => Value.str ("%" ++ p.2 ++ "%")))
      ∧ ((update_record_query cfgC 42 [("name", Value.str "Ann")] "ann@co" 0).1
            = (update_record_query cfgC 43 [("name", Value.str "Bob")] "bob@co" 2).1
        ∧ (update_record_query cfgC 42 [("name", Value.str "Ann")] "ann@co" 0).2
            = (update_record_mutated [("name", Value.str "Ann")] 0).map Prod.snd
                ++ [Value.nat 42, Value.str "ann@co"])
      ∧ ((delete_record_query cfgC 42 "ann@co").1 = (delete_record_query cfgC 43 "bob@co").1
        ∧ (delete_record_query cfgC 42 "ann@co").2 = [Value.nat 42, Value.str "ann@co"])) :=
  ⟨⟨by decide, by decide⟩,
   C2_positional_parameters_only cfgC [("name", Value.str "Ann")] [("name", Value.str "Bob")]
     "ann@co" "bob@co" 0 1 2 3 42 43 [("name", some "Jo")] [("name", some "Ma")]
     (by decide) (by decide)⟩

/-- **C3** counterexample: Scenario C run on the code. Row 42 is owned by
`"ann@co"`; `update_record(42, {"status": "Inactive"}, "bob@co")` affects
zero rows (the table is unchanged), yet `execute_query` returns `True` and
the UI takes the success branch ("Record updated successfully!") — the
outcome IS reported as a success, contradicting the claim that the no-op is
not reported as a success. -/
theorem C3_counterexample :
    rowAnn.id = 42 ∧ rowAnn.owner_user = "ann@co" ∧ "ann@co" ≠ "bob@co"
    ∧ (update_record ⟨false, false⟩ store42 42 updC "bob@co" 5).1 = store42
    ∧ reported_success (update_record ⟨false, false⟩ store42 42 updC "bob@co" 5).2 = true := by
  decide

/-- **C3** (amended): when `update_record` targets a row id that no row
owned by the acting identity carries, zero rows are affected (the table is
unchanged) and the call does not report an error — but the code returns the
same generic `True` outcome as a real update, so the caller observes a
(false-positive) success, not a distinguishable no-op. -/
theorem C3_foreign_update_reports_success (store : Store) (rid : Nat)
    (d : Dict) (u : String) (t : Nat)
    (h : ∀ r ∈ store, r.id = rid → r.owner_user ≠ u) :
    update_record ⟨false, false⟩ store rid d u t = (store, some true)
    ∧ reported_success (some true) = true := by
  refine ⟨?_, rfl⟩
  show (update_store store rid (update_record_mutated d t) u, some true) = (store, some true)
  have hrow : ∀ row ∈ store,
      (if row.id == rid && row.owner_user == u then
        applyUpdates row (update_record_mutated d t) else row) = row := by
    intro row hrowm
    by_cases hid : row.id = rid
    · have hb : (row.owner_user == u) = false := beq_false_of_ne (h row hrowm hid)
      simp [hb]
    · simp [beq_false_of_ne hid]
  unfold update_store
  rw [List.map_congr_left hrow, List.map_id']

/-- Witness for the amended C3 at Scenario C's concrete input. -/
theorem C3_foreign_update_reports_success_witness :
    (∀ r ∈ store42, r.id = 42 → r.owner_user ≠ "bob@co")
    ∧ (update_record ⟨false, false⟩ store42 42 updC "bob@co" 5 = (store42, some true)
      ∧ reported_success (some true) = true) :=
  ⟨by decide, C3_foreign_update_reports_success store42 42 updC "bob@co" 5 (by decide)⟩

/-- **C4** counterexample: a backend failure during the SELECT (the
exception is caught and `execute_query` returns `None`) makes `read_records`
return the very same empty result as a successful read of an empty table —
`pd.DataFrame()` in both branches of `if result:` — so the caller cannot
distinguish "unavailable" from "zero rows" by the returned value. The store
is non-empty and owned by the querying identity, so the empty result under
failure is not due to there being no rows. -/
theorem C4_counterexample :
    matchingRows "ann@co" [] store42 = [rowAnn]
    ∧ read_records ⟨false, true, false⟩ "ann@co" [] store42 = .ok []
    ∧ read_records ⟨false, false, false⟩ "ann@co" [] ([] : Store) = .ok []
    ∧ read_records ⟨false, true, false⟩ "ann@co" [] store42
        = read_records ⟨false, false, false⟩ "ann@co" [] ([] : Store) := by
  decide

/-- **C4** (amended): an empty sequence is indeed a valid, non-error result
of `read_records`; however every backend failure (connection unavailable or
an exception caught inside `execute_query`) is also returned to the caller
as that same empty result — the failure is signalled only by a UI
side-effect message, not by any distinguishable "unavailable" return
value. -/
theorem C4_failure_conflated_with_empty (u : String)
    (filters : List (String × Option String)) (store : Store) (c q dsc : Bool) :
    read_records ⟨c, true, dsc⟩ u filters store = .ok []
    ∧ read_records ⟨true, q, dsc⟩ u filters store = .ok []
    ∧ read_records ⟨false, false, dsc⟩ u filters ([] : Store) = .ok [] := by
  refine ⟨?_, ?_, ?_⟩
  · unfold read_records execute_query_select
    cases c <;> rfl
  · unfold read_records execute_query_select
    rfl
  · unfold read_records execute_query_select matchingRows sortByUpdatedDesc
    rfl

/-- **C5** counterexample: `create_record` samples `datetime.now()` twice —
once for `created_at` and once for `updated_at`. When the clock advances
between the two calls (first sample 0, second sample 1), the persisted row
has `created_at = 0 ≠ 1 = updated_at`, contradicting the claimed
`created_at == updated_at`. -/
theorem C5_counterexample :
    (rowOfDict 7 (create_record_mutated [("name", Value.str "Ann")] "ann@co" 0 1)).owner_user
        = "ann@co"
    ∧ (rowOfDict 7 (create_record_mutated [("name", Value.str "Ann")] "ann@co" 0 1)).created_at = 0
    ∧ (rowOfDict 7 (create_record_mutated [("name", Value.str "Ann")] "ann@co" 0 1)).updated_at = 1
    ∧ (rowOfDict 7 (create_record_mutated [("name", Value.str "Ann")] "ann@co" 0 1)).created_at
        ≠ (rowOfDict 7 (create_record_mutated [("name", Value.str "Ann")] "ann@co" 0 1)).updated_at := by
  decide

theorem create_mutated_owner (data : Dict) (u : String) (t₁ t₂ : Nat) :
    dictGet (create_record_mutated data u t₁ t₂) "owner_user" = some (Value.str u) := by
  unfold create_record_mutated
  rw [dictGet_dictSet_ne _ _ (by decide), dictGet_dictSet_ne _ _ (by decide),
    dictGet_dictSet_self]

theorem create_mutated_created (data : Dict) (u : String) (t₁ t₂ : Nat) :
    dictGet (create_record_mutated data u t₁ t₂) "created_at" = some (Value.time t₁) := by
  unfold create_record_mutated
  rw [dictGet_dictSet_ne _ _ (by decide), dictGet_dictSet_self]

theorem create_mutated_updated (data : Dict) (u : String) (t₁ t₂ : Nat) :
    dictGet (create_record_mutated data u t₁ t₂) "updated_at" = some (Value.time t₂) := by
  unfold create_record_mutated
  rw [dictGet_dictSet_self]

/-- **C5** (amended): any successful `create_record(fields, u)` persists a
single inserted row whose `owner_user` is exactly `u` (overwriting any
caller-supplied value); `created_at` receives the first `datetime.now()`
sample and `updated_at` the second, so the two stamps are equal exactly when
the two consecutive clock samples coincide — which the code does not
guarantee, since they are separate `now()` calls. -/
theorem C5_stamping (store : Store) (newId : Nat) (data : Dict)
    (u : String) (t₁ t₂ t : Nat) :
    create_record ⟨false, false⟩ store newId data u t₁ t₂
      = (store ++ [rowOfDict newId (create_record_mutated data u t₁ t₂)], some true)
    ∧ (rowOfDict newId (create_record_mutated data u t₁ t₂)).owner_user = u
    ∧ (rowOfDict newId (create_record_mutated data u t₁ t₂)).created_at = t₁
    ∧ (rowOfDict newId (create_record_mutated data u t₁ t₂)).updated_at = t₂
    ∧ (rowOfDict newId (create_record_mutated data u t t)).created_at
        = (rowOfDict newId (create_record_mutated data u t t)).updated_at := by
  refine ⟨rfl, ?_, ?_, ?_, ?_⟩
  · simp [rowOfDict, create_mutated_owner]
  · simp [rowOfDict, create_mutated_created]
  · simp [rowOfDict, create_mutated_updated]
  · simp [rowOfDict, create_mutated_created, create_mutated_updated]

/-- **C6** (code bug, evaluated): after a successful mutation the code runs
`st.session_state.data_cache = None`, which leaves the `data_cache` key
present (holding `None`) rather than absent; the View Data tab's guard
`if 'data_cache' not in st.session_state:` therefore does NOT fire, so no
fresh fetch is triggered, and the subsequent `data.empty` dereferences
`None` and raises an `AttributeError` instead of displaying records. The
pre-mutation view is discarded, but the claimed "fresh fetch before records
are displayed" never happens. -/
theorem C6_invalidation_skips_refetch (c : CacheSlot) (fetched : List Row) :
    clear_cache c = some none
    ∧ cache_key_absent (clear_cache c) = false
    ∧ view_tab_cache (clear_cache c) fetched = some none
    ∧ display_data (view_tab_cache (clear_cache c) fetched) = .raised :=
  ⟨rfl, rfl, rfl, rfl⟩

/-- **C7**: `get_current_user` never lets a failure escape — a `None`
result from `execute_query` (connection failure or caught exception), an
empty row list, or an empty first row (whose indexing raises and is caught
by the bare `except`) all yield the sentinel `"unknown_user"`. The Lean
function is total, mirroring the `try`/`except` that swallows every
exception. -/
theorem C7_identity_fallback (result : Option (List (List String)))
    (h : result = none ∨ result = some []
        ∨ ∃ rest, result = some ([] :: rest)) :
    get_current_user result = "unknown_user" := by
  rcases h with h | h | ⟨rest, h⟩ <;> subst h <;> rfl

/-- Witness for C7 at the connection-failure input. -/
theorem C7_identity_fallback_witness :
    ((none : Option (List (List String))) = none
      ∨ (none : Option (List (List String))) = some []
      ∨ ∃ rest, (none : Option (List (List String))) = some ([] :: rest))
    ∧ get_current_user none = "unknown_user" :=
  ⟨Or.inl rfl, C7_identity_fallback none (Or.inl rfl)⟩

/-- **C8** counterexample: when the main SELECT succeeds with a non-empty
result but the `DESCRIBE` statement — executed by `read_records` directly
on the connection, outside `execute_query`'s `try`/`except` — raises, the
backend exception escapes `read_records` uncaught instead of being
converted to a reportable outcome. -/
theorem C8_counterexample :
    matchingRows "ann@co" [] store42 = [rowAnn]
    ∧ read_records ⟨false, false, true⟩ "ann@co" [] store42 = .raised := by
  decide

/-- **C8** (amended): every backend exception raised while executing the
generated statement inside `execute_query` is caught and converted into a
reportable value — `create_record`, `update_record` and `delete_record`
return the failure value `None` and never raise, and a failing SELECT makes
`read_records` return the empty result — but the `DESCRIBE` metadata query
of `read_records` runs outside the guarded helper, and an exception there
escapes `read_records` uncaught (exactly when the SELECT succeeded with a
non-empty result). -/
theorem C8_exceptions_caught_except_describe (store : Store) (newId rid : Nat)
    (d : Dict) (u : String) (t₁ t₂ t : Nat) (c dsc : Bool)
    (filters : List (String × Option String)) :
    create_record ⟨c, true⟩ store newId d u t₁ t₂ = (store, none)
    ∧ update_record ⟨c, true⟩ store rid d u t = (store, none)
    ∧ delete_record ⟨c, true⟩ store rid u = (store, none)
    ∧ read_records ⟨c, true, dsc⟩ u filters store = .ok []
    ∧ read_records ⟨false, false, true⟩ u filters store
        = (if matchingRows u filters store = [] then PyExec.ok [] else .raised) := by
  refine ⟨?_, ?_, ?_, ?_, ?_⟩
  · unfold create_record execute_query_nonselect
    cases c <;> rfl
  · unfold update_record execute_query_nonselect
    cases c <;> rfl
  · unfold delete_record execute_query_nonselect
    cases c <;> rfl
  · unfold read_records execute_query_select
    cases c <;> rfl
  · unfold read_records execute_query_select
    cases hm : matchingRows u filters store with
    | nil => simp [hm]
    | cons r rs => simp [hm]

/-- **C9** (filter neutrality): an absent filter mapping and a mapping whose
values are the empty string or `None` generate the identical statement text
and parameter list, and produce the identical result set — Python's
`if value:` skips falsy filter values, so no `LIKE '%%'` clause is ever
emitted. -/
theorem C9_filter_neutrality (cfg : Config) (u : String) (b : ReadBehavior)
    (store : Store) :
    read_records_query cfg u []
        = read_records_query cfg u [("name", some ""), ("email", none)]
    ∧ matchingRows u [] store
        = matchingRows u [("name", some ""), ("email", none)] store
    ∧ read_records b u [] store
        = read_records b u [("name", some ""), ("email", none)] store :=
  ⟨rfl, rfl, rfl⟩

/-- **C10**: `create_record` writes `owner_user`, `created_at` and
`updated_at` into the caller-supplied dict before building the statement
(`create_record_mutated` is the caller's dict after the call — the Python
code mutates it in place), overwriting any caller-supplied values for those
keys, so a caller-supplied `owner_user` can never reach the insert: the
insert's parameter list is exactly the values of the mutated dict, whose
`owner_user` slot holds the acting identity. `update_record` likewise
writes `updated_at` into the dict before building its statement. -/
theorem C10_in_place_stamping (cfg : Config) (data : Dict) (u : String)
    (t₁ t₂ t : Nat) (rid : Nat) :
    dictGet (create_record_mutated data u t₁ t₂) "owner_user" = some (Value.str u)
    ∧ dictGet (create_record_mutated data u t₁ t₂) "created_at" = some (Value.time t₁)
    ∧ dictGet (create_record_mutated data u t₁ t₂) "updated_at" = some (Value.time t₂)
    ∧ (create_record_query cfg data u t₁ t₂).2
        = (create_record_mutated data u t₁ t₂).map Prod.snd
    ∧ dictGet (update_record_mutated data t) "updated_at" = some (Value.time t)
    ∧ (update_record_query cfg rid data u t).2
        = (update_record_mutated data t).map Prod.snd ++ [Value.nat rid, Value.str u] :=
  ⟨create_mutated_owner data u t₁ t₂, create_mutated_created data u t₁ t₂,
   create_mutated_updated data u t₁ t₂, rfl,
   dictGet_dictSet_self data "updated_at" (Value.time t), rfl⟩

end DBApp
